import Mathlib

/-
Shallow embedding of src/api/client/polly_client.py (class PollyClient).

The client holds a base URL and an optional bearer token.  Every method
builds one HTTP request, sends it through a transport, raises
requests.exceptions.HTTPError for 4xx/5xx statuses via
response.raise_for_status(), and returns the decoded JSON body.

Modelling choices:
  - the HTTP transport is an explicit function from requests to responses;
    each operation also returns the list of requests it actually sent, so
    "no network call happened" and "exactly one request, no retry" are
    provable statements;
  - a response body is an already-decoded JSON value (response.json() is
    the identity on it);
  - Python exceptions become an Except value: ValueError for the local
    auth guard, HTTPError for raise_for_status, KeyError/TypeError for
    dictionary subscripts;
  - the token field follows its annotation (token: str), so it is an
    Option String; Python truthiness of "not self.token" is explicit.
-/

namespace Polly

/-- Decoded JSON values, as produced by response.json(). -/
inductive Json where
  | null : Json
  | bool : Bool → Json
  | num : Int → Json
  | str : String → Json
  | arr : List Json → Json
  | obj : List (String × Json) → Json
deriving Repr

/-- HTTP method of a request built by the client. -/
inductive Method where
  | GET : Method
  | POST : Method
  | DELETE : Method
deriving Repr, DecidableEq

/-- Request body: none, form-encoded fields (requests data=...), or a JSON
payload (requests json=...). -/
inductive Body where
  | none : Body
  | form : List (String × String) → Body
  | json : Json → Body
deriving Repr

/-- One HTTP request as the client hands it to the requests library:
method, url, query parameters (params=...), extra headers, body. -/
structure Request where
  method : Method
  url : String
  params : List (String × String)
  headers : List (String × String)
  body : Body
deriving Repr

/-- One HTTP response: a status code and the decoded JSON body. -/
structure Response where
  status : Nat
  body : Json
deriving Repr

/-- The Python exceptions the client can raise. -/
inductive PyError where
  | valueError : String → PyError
  | httpError : Nat → Json → PyError
  | keyError : String → PyError
  | typeError : String → PyError
deriving Repr

/-- The HTTP layer: a function from the request sent to the response
received.  Each operation of the client performs at most one call. -/
abbrev Transport := Request → Response

/-- Client state: self.base_url and self.token (annotation token: str,
None until login or set_token). -/
structure PollyClient where
  base_url : String
  token : Option String
deriving Repr

/-- PollyClient.__init__: stores the base url and sets token to None. -/
def init (base_url : String := "http://localhost:8000") : PollyClient :=
  { base_url := base_url, token := Option.none }

/-- PollyClient.set_token: self.token = token. -/
def set_token (c : PollyClient) (token : String) : PollyClient :=
  { c with token := some token }

/-- Python truthiness of the optional token string: "not self.token" is
True exactly when the token is None or the empty string. -/
def tokenTruthy : Option String → Bool
  | Option.none => false
  | some s => !(s == "")

/-- The ValueError message used verbatim by all three authenticated
methods. -/
def authErrorMsg : String := "Authentication token is required. Please login first."

/-- response.raise_for_status() of the requests library: raises HTTPError
exactly when 400 <= status_code < 600 (4xx client errors and 5xx server
errors); any other status, 2xx or 3xx alike, passes. -/
def raise_for_status (r : Response) : Except PyError Unit :=
  if 400 ≤ r.status ∧ r.status < 600 then
    Except.error (PyError.httpError r.status r.body)
  else
    Except.ok ()

/-- Python dictionary subscript d[key] on a decoded JSON value: the value
when the object has the key, KeyError when an object lacks it, TypeError
when the value is not an object. -/
def jsonGetItem (j : Json) (key : String) : Except PyError Json :=
  match j with
  | Json.obj fields =>
    match fields.lookup key with
    | some v => Except.ok v
    | Option.none => Except.error (PyError.keyError key)
  | _ => Except.error (PyError.typeError "value is not subscriptable by a string key")

/-- The request login builds: POST {base_url}/login with form data
username/password, no extra headers. -/
def login_request (c : PollyClient) (username password : String) : Request :=
  { method := Method.POST
    url := c.base_url ++ "/login"
    params := []
    headers := []
    body := Body.form [("username", username), ("password", password)] }

/-- PollyClient.login: POST the credentials, raise_for_status, then store
token_data["access_token"] via set_token and return the decoded body.
The stored value is a string per the token: str annotation; a missing key
is a KeyError, a non-object body a TypeError. -/
def login (c : PollyClient) (t : Transport) (username password : String) :
    Except PyError Json × PollyClient × List Request :=
  let req := login_request c username password
  let resp := t req
  match raise_for_status resp with
  | Except.error e => (Except.error e, c, [req])
  | Except.ok _ =>
    match jsonGetItem resp.body "access_token" with
    | Except.error e => (Except.error e, c, [req])
    | Except.ok (Json.str tok) => (Except.ok resp.body, set_token c tok, [req])
    | Except.ok _ => (Except.error (PyError.typeError "access_token is not a string"), c, [req])

/-- The request vote_on_poll builds: POST {base_url}/polls/{poll_id}/vote
with bearer-auth and JSON content-type headers and body option_id. -/
def vote_request (c : PollyClient) (poll_id option_id : Int) : Request :=
  { method := Method.POST
    url := c.base_url ++ "/polls/" ++ toString poll_id ++ "/vote"
    params := []
    headers := [("Authorization", "Bearer " ++ c.token.getD ""),
                ("Content-Type", "application/json")]
    body := Body.json (Json.obj [("option_id", Json.num option_id)]) }

/-- PollyClient.vote_on_poll: guard "if not self.token: raise ValueError"
before any network call, then POST the vote, raise_for_status, and return
the decoded body.  The client state is returned unchanged. -/
def vote_on_poll (c : PollyClient) (t : Transport) (poll_id option_id : Int) :
    Except PyError Json × PollyClient × List Request :=
  if !tokenTruthy c.token then
    (Except.error (PyError.valueError authErrorMsg), c, [])
  else
    let req := vote_request c poll_id option_id
    let resp := t req
    ((match raise_for_status resp with
      | Except.error e => Except.error e
      | Except.ok _ => Except.ok resp.body), c, [req])

/-- The request get_polls builds: GET {base_url}/polls with query
parameters skip and limit (requests stringifies numeric params), no
headers. -/
def polls_request (c : PollyClient) (skip limit : Int) : Request :=
  { method := Method.GET
    url := c.base_url ++ "/polls"
    params := [("skip", toString skip), ("limit", toString limit)]
    headers := []
    body := Body.none }

/-- PollyClient.get_polls(skip=0, limit=10): unauthenticated GET /polls
with the pagination query parameters, raise_for_status, return the
decoded list as-is.  No validation of skip or limit. -/
def get_polls (c : PollyClient) (t : Transport) (skip : Int := 0) (limit : Int := 10) :
    Except PyError Json × PollyClient × List Request :=
  let req := polls_request c skip limit
  let resp := t req
  ((match raise_for_status resp with
    | Except.error e => Except.error e
    | Except.ok _ => Except.ok resp.body), c, [req])

/-- The request get_poll builds: GET {base_url}/polls/{poll_id}, no
parameters, no headers. -/
def poll_request (c : PollyClient) (poll_id : Int) : Request :=
  { method := Method.GET
    url := c.base_url ++ "/polls/" ++ toString poll_id
    params := []
    headers := []
    body := Body.none }

/-- PollyClient.get_poll: unauthenticated GET /polls/{poll_id},
raise_for_status, return the decoded body. -/
def get_poll (c : PollyClient) (t : Transport) (poll_id : Int) :
    Except PyError Json × PollyClient × List Request :=
  let req := poll_request c poll_id
  let resp := t req
  ((match raise_for_status resp with
    | Except.error e => Except.error e
    | Except.ok _ => Except.ok resp.body), c, [req])

/-- The request get_poll_results builds: GET
{base_url}/polls/{poll_id}/results, no parameters, no headers. -/
def results_request (c : PollyClient) (poll_id : Int) : Request :=
  { method := Method.GET
    url := c.base_url ++ "/polls/" ++ toString poll_id ++ "/results"
    params := []
    headers := []
    body := Body.none }

/-- PollyClient.get_poll_results: unauthenticated GET
/polls/{poll_id}/results, raise_for_status, return the decoded body. -/
def get_poll_results (c : PollyClient) (t : Transport) (poll_id : Int) :
    Except PyError Json × PollyClient × List Request :=
  let req := results_request c poll_id
  let resp := t req
  ((match raise_for_status resp with
    | Except.error e => Except.error e
    | Except.ok _ => Except.ok resp.body), c, [req])

/-- The request create_poll builds: POST {base_url}/polls with bearer-auth
and JSON content-type headers and body question/options. -/
def create_request (c : PollyClient) (question : String) (options : List String) : Request :=
  { method := Method.POST
    url := c.base_url ++ "/polls"
    params := []
    headers := [("Authorization", "Bearer " ++ c.token.getD ""),
                ("Content-Type", "application/json")]
    body := Body.json (Json.obj [("question", Json.str question),
                                 ("options", Json.arr (options.map Json.str))]) }

/-- PollyClient.create_poll: guard "if not self.token: raise ValueError"
before any network call, then POST the poll, raise_for_status, and return
the decoded body.  The client state is returned unchanged. -/
def create_poll (c : PollyClient) (t : Transport) (question : String) (options : List String) :
    Except PyError Json × PollyClient × List Request :=
  if !tokenTruthy c.token then
    (Except.error (PyError.valueError authErrorMsg), c, [])
  else
    let req := create_request c question options
    let resp := t req
    ((match raise_for_status resp with
      | Except.error e => Except.error e
      | Except.ok _ => Except.ok resp.body), c, [req])

/-- The request delete_poll builds: DELETE {base_url}/polls/{poll_id} with
only the bearer-auth header. -/
def delete_request (c : PollyClient) (poll_id : Int) : Request :=
  { method := Method.DELETE
    url := c.base_url ++ "/polls/" ++ toString poll_id
    params := []
    headers := [("Authorization", "Bearer " ++ c.token.getD "")]
    body := Body.none }

/-- PollyClient.delete_poll: guard "if not self.token: raise ValueError"
before any network call, then DELETE the poll and raise_for_status; there
is no return value.  The client state is returned unchanged. -/
def delete_poll (c : PollyClient) (t : Transport) (poll_id : Int) :
    Except PyError Unit × PollyClient × List Request :=
  if !tokenTruthy c.token then
    (Except.error (PyError.valueError authErrorMsg), c, [])
  else
    let req := delete_request c poll_id
    let resp := t req
    ((match raise_for_status resp with
      | Except.error e => Except.error e
      | Except.ok _ => Except.ok ()), c, [req])

/-- Helper: a Python dictionary subscript never raises an HTTPError, only
KeyError or TypeError. -/
theorem jsonGetItem_ne_httpError (j : Json) (k : String) (st : Nat) (b : Json) :
    jsonGetItem j k ≠ Except.error (PyError.httpError st b) := by
  unfold jsonGetItem
  cases j <;> simp
  case obj fields =>
    cases h : fields.lookup k <;> simp [h]

/-- C1, as stated, fails on the code: the guard is Python truthiness
(if not self.token), so a client whose token is set to the empty string
still raises the local ValueError and makes zero network calls, although
its token is not None. -/
theorem C1_counterexample :
    (PollyClient.mk "http://localhost:8000" (some "")).token ≠ Option.none ∧
    vote_on_poll (PollyClient.mk "http://localhost:8000" (some ""))
        (fun _ => Response.mk 200 Json.null) 1 1 =
      (Except.error (PyError.valueError authErrorMsg),
       PollyClient.mk "http://localhost:8000" (some ""), []) :=
  ⟨by simp, rfl⟩

/-- C1 (amended): each authenticated operation (vote_on_poll, create_poll,
delete_poll) individually returns the local ValueError with the fixed
message and an empty request trace — zero network calls, never an HTTP
error — exactly when the token is Python-falsy, i.e. None or the empty
string: one biconditional per operation. -/
theorem C1_auth_guard_falsy (c : PollyClient) (t : Transport)
    (pid oid : Int) (q : String) (opts : List String) :
    (vote_on_poll c t pid oid =
        (Except.error (PyError.valueError authErrorMsg), c, [])
      ↔ tokenTruthy c.token = false) ∧
    (create_poll c t q opts =
        (Except.error (PyError.valueError authErrorMsg), c, [])
      ↔ tokenTruthy c.token = false) ∧
    (delete_poll c t pid =
        (Except.error (PyError.valueError authErrorMsg), c, [])
      ↔ tokenTruthy c.token = false) := by
  cases h : tokenTruthy c.token <;>
    simp [vote_on_poll, create_poll, delete_poll, h]

/-- C2: login sends a form-encoded POST to /login with the username and
password fields; on a 2xx response whose body carries an access_token
string, it stores that value as the client token (via set_token) and
returns the full decoded body. -/
theorem C2_login_contract (c : PollyClient) (t : Transport) (u p tok : String)
    (h2 : 200 ≤ (t (login_request c u p)).status ∧ (t (login_request c u p)).status < 300)
    (htok : jsonGetItem (t (login_request c u p)).body "access_token" =
      Except.ok (Json.str tok)) :
    login c t u p =
      (Except.ok (t (login_request c u p)).body, set_token c tok, [login_request c u p]) ∧
    (set_token c tok).token = some tok ∧
    (login_request c u p).method = Method.POST ∧
    (login_request c u p).url = c.base_url ++ "/login" ∧
    (login_request c u p).body = Body.form [("username", u), ("password", p)] := by
  have hrs : raise_for_status (t (login_request c u p)) = Except.ok () := by
    unfold raise_for_status
    rw [if_neg]
    omega
  refine ⟨?_, rfl, rfl, rfl, rfl⟩
  simp only [login, hrs, htok]

/-- C2 witness: a mocked 200 login response with body
access_token tok123 / token_type bearer. -/
theorem C2_login_contract_witness :
    login (init "http://localhost:8000")
        (fun _ => Response.mk 200 (Json.obj [("access_token", Json.str "tok123"),
                                             ("token_type", Json.str "bearer")]))
        "alice" "secret" =
      (Except.ok (Json.obj [("access_token", Json.str "tok123"),
                            ("token_type", Json.str "bearer")]),
       set_token (init "http://localhost:8000") "tok123",
       [login_request (init "http://localhost:8000") "alice" "secret"]) ∧
    (set_token (init "http://localhost:8000") "tok123").token = some "tok123" ∧
    (login_request (init "http://localhost:8000") "alice" "secret").method = Method.POST ∧
    (login_request (init "http://localhost:8000") "alice" "secret").url =
      (init "http://localhost:8000").base_url ++ "/login" ∧
    (login_request (init "http://localhost:8000") "alice" "secret").body =
      Body.form [("username", "alice"), ("password", "secret")] :=
  C2_login_contract (init "http://localhost:8000") _ "alice" "secret" "tok123"
    (by constructor <;> decide) rfl

/-- C3: when the server answers any request with a 4xx/5xx status, every
operation returns an HTTPError carrying that status code and the response
body verbatim, after exactly one request — no retry, no fallback. -/
theorem C3_http_error_propagation (c : PollyClient) (resp : Response)
    (u p q : String) (opts : List String) (pid oid skip limit : Int)
    (htok : tokenTruthy c.token = true)
    (hs : 400 ≤ resp.status ∧ resp.status < 600) :
    login c (fun _ => resp) u p =
      (Except.error (PyError.httpError resp.status resp.body), c, [login_request c u p]) ∧
    vote_on_poll c (fun _ => resp) pid oid =
      (Except.error (PyError.httpError resp.status resp.body), c, [vote_request c pid oid]) ∧
    get_polls c (fun _ => resp) skip limit =
      (Except.error (PyError.httpError resp.status resp.body), c, [polls_request c skip limit]) ∧
    get_poll c (fun _ => resp) pid =
      (Except.error (PyError.httpError resp.status resp.body), c, [poll_request c pid]) ∧
    get_poll_results c (fun _ => resp) pid =
      (Except.error (PyError.httpError resp.status resp.body), c, [results_request c pid]) ∧
    create_poll c (fun _ => resp) q opts =
      (Except.error (PyError.httpError resp.status resp.body), c, [create_request c q opts]) ∧
    delete_poll c (fun _ => resp) pid =
      (Except.error (PyError.httpError resp.status resp.body), c, [delete_request c pid]) := by
  have hrs : raise_for_status resp =
      Except.error (PyError.httpError resp.status resp.body) := by
    unfold raise_for_status
    rw [if_pos hs]
  refine ⟨?_, ?_, ?_, ?_, ?_, ?_, ?_⟩ <;>
    simp [login, vote_on_poll, get_polls, get_poll, get_poll_results,
          create_poll, delete_poll, hrs, htok]

/-- C3 witness: a client with token tok against a mocked 404 response with
body Not Found. -/
theorem C3_http_error_propagation_witness :
    tokenTruthy (PollyClient.mk "http://localhost:8000" (some "tok")).token = true ∧
    (400 ≤ (404 : Nat) ∧ (404 : Nat) < 600) ∧
    get_poll (PollyClient.mk "http://localhost:8000" (some "tok"))
        (fun _ => Response.mk 404 (Json.str "Not Found")) 999 =
      (Except.error (PyError.httpError 404 (Json.str "Not Found")),
       PollyClient.mk "http://localhost:8000" (some "tok"),
       [poll_request (PollyClient.mk "http://localhost:8000" (some "tok")) 999]) :=
  ⟨by decide, by decide,
   (C3_http_error_propagation (PollyClient.mk "http://localhost:8000" (some "tok"))
      (Response.mk 404 (Json.str "Not Found")) "u" "p" "q" [] 999 1 0 10
      (by decide) (by decide)).2.2.2.1⟩

/-- C4, as stated, fails on the code: with the token set to the empty
string, vote_on_poll does not send any POST — it raises the local
ValueError with an empty request trace. -/
theorem C4_counterexample :
    (PollyClient.mk "http://localhost:8000" (some "")).token = some "" ∧
    vote_on_poll (PollyClient.mk "http://localhost:8000" (some ""))
        (fun _ => Response.mk 200 Json.null) 42 7 =
      (Except.error (PyError.valueError authErrorMsg),
       PollyClient.mk "http://localhost:8000" (some ""), []) :=
  ⟨rfl, rfl⟩

/-- C4 (amended): with a non-empty token set, vote_on_poll sends exactly
one POST to /polls/{poll_id}/vote with JSON body option_id and headers
Authorization Bearer token and Content-Type application/json, and on a 2xx
response returns the decoded body unchanged. -/
theorem C4_vote_contract (c : PollyClient) (t : Transport) (pid oid : Int) (tok : String)
    (htok : c.token = some tok) (hne : tok ≠ "")
    (h2 : 200 ≤ (t (vote_request c pid oid)).status ∧
      (t (vote_request c pid oid)).status < 300) :
    vote_on_poll c t pid oid =
      (Except.ok (t (vote_request c pid oid)).body, c, [vote_request c pid oid]) ∧
    (vote_request c pid oid).method = Method.POST ∧
    (vote_request c pid oid).url = c.base_url ++ "/polls/" ++ toString pid ++ "/vote" ∧
    (vote_request c pid oid).body = Body.json (Json.obj [("option_id", Json.num oid)]) ∧
    (vote_request c pid oid).headers =
      [("Authorization", "Bearer " ++ tok), ("Content-Type", "application/json")] := by
  have htt : tokenTruthy c.token = true := by
    simp [tokenTruthy, htok, hne]
  have hrs : raise_for_status (t (vote_request c pid oid)) = Except.ok () := by
    unfold raise_for_status
    rw [if_neg]
    omega
  refine ⟨?_, rfl, rfl, rfl, ?_⟩
  · simp [vote_on_poll, htt, hrs]
  · simp [vote_request, htok]

/-- C4 witness: voteOnPoll(42, 7) with token tok123 against a mocked 200
response returns the mocked body unchanged. -/
theorem C4_vote_contract_witness :
    (PollyClient.mk "http://localhost:8000" (some "tok123")).token = some "tok123" ∧
    vote_on_poll (PollyClient.mk "http://localhost:8000" (some "tok123"))
        (fun _ => Response.mk 200 (Json.obj [("id", Json.num 1), ("option_id", Json.num 7)]))
        42 7 =
      (Except.ok (Json.obj [("id", Json.num 1), ("option_id", Json.num 7)]),
       PollyClient.mk "http://localhost:8000" (some "tok123"),
       [vote_request (PollyClient.mk "http://localhost:8000" (some "tok123")) 42 7]) ∧
    (vote_request (PollyClient.mk "http://localhost:8000" (some "tok123")) 42 7).headers =
      [("Authorization", "Bearer " ++ "tok123"), ("Content-Type", "application/json")] :=
  ⟨rfl,
   (C4_vote_contract (PollyClient.mk "http://localhost:8000" (some "tok123"))
      (fun _ => Response.mk 200 (Json.obj [("id", Json.num 1), ("option_id", Json.num 7)]))
      42 7 "tok123" rfl (by decide) (by decide)).1,
   (C4_vote_contract (PollyClient.mk "http://localhost:8000" (some "tok123"))
      (fun _ => Response.mk 200 (Json.obj [("id", Json.num 1), ("option_id", Json.num 7)]))
      42 7 "tok123" rfl (by decide) (by decide)).2.2.2.2⟩

/-- C5: get_polls sends one unauthenticated GET to /polls with query
parameters skip and limit — defaulting to 0 and 10 when not given, with
no client-side validation of the bounds — and on a 2xx response returns
the decoded body as-is. -/
theorem C5_get_polls_contract (c : PollyClient) (t : Transport) (skip limit : Int)
    (h2 : 200 ≤ (t (polls_request c skip limit)).status ∧
      (t (polls_request c skip limit)).status < 300) :
    get_polls c t skip limit =
      (Except.ok (t (polls_request c skip limit)).body, c, [polls_request c skip limit]) ∧
    get_polls c t = get_polls c t 0 10 ∧
    (polls_request c skip limit).method = Method.GET ∧
    (polls_request c skip limit).url = c.base_url ++ "/polls" ∧
    (polls_request c skip limit).params =
      [("skip", toString skip), ("limit", toString limit)] ∧
    (polls_request c skip limit).headers = [] := by
  have hrs : raise_for_status (t (polls_request c skip limit)) = Except.ok () := by
    unfold raise_for_status
    rw [if_neg]
    omega
  refine ⟨?_, rfl, rfl, rfl, rfl, rfl⟩
  simp [get_polls, hrs]

/-- C5 witness: getPolls with skip 20 and limit 5 issues GET /polls with
params skip 20 and limit 5, even with negative bounds the request is
built, and the 200 body comes back as-is. -/
theorem C5_get_polls_contract_witness :
    get_polls (PollyClient.mk "http://localhost:8000" Option.none)
        (fun _ => Response.mk 200 (Json.arr [Json.num 1, Json.num 2])) 20 5 =
      (Except.ok (Json.arr [Json.num 1, Json.num 2]),
       PollyClient.mk "http://localhost:8000" Option.none,
       [polls_request (PollyClient.mk "http://localhost:8000" Option.none) 20 5]) ∧
    (polls_request (PollyClient.mk "http://localhost:8000" Option.none) 20 5).params =
      [("skip", "20"), ("limit", "5")] ∧
    (polls_request (PollyClient.mk "http://localhost:8000" Option.none) (-3) (-7)).params =
      [("skip", "-3"), ("limit", "-7")] :=
  ⟨(C5_get_polls_contract (PollyClient.mk "http://localhost:8000" Option.none)
      (fun _ => Response.mk 200 (Json.arr [Json.num 1, Json.num 2])) 20 5 (by decide)).1,
   rfl, rfl⟩

/-- C6, as stated, fails on the code: with the token set to the empty
string and a mocked 204 response, delete_poll raises the local ValueError
(and sends nothing) instead of returning quietly. -/
theorem C6_counterexample :
    (PollyClient.mk "http://localhost:8000" (some "")).token = some "" ∧
    delete_poll (PollyClient.mk "http://localhost:8000" (some ""))
        (fun _ => Response.mk 204 Json.null) 5 =
      (Except.error (PyError.valueError authErrorMsg),
       PollyClient.mk "http://localhost:8000" (some ""), []) :=
  ⟨rfl, rfl⟩

/-- C6 (amended): with a non-empty token set, delete_poll sends one
authenticated DELETE to /polls/{poll_id} and, on any 2xx response (200 or
204 alike), returns no value and raises nothing. -/
theorem C6_delete_contract (c : PollyClient) (t : Transport) (pid : Int) (tok : String)
    (htok : c.token = some tok) (hne : tok ≠ "")
    (h2 : 200 ≤ (t (delete_request c pid)).status ∧ (t (delete_request c pid)).status < 300) :
    delete_poll c t pid = (Except.ok (), c, [delete_request c pid]) ∧
    (delete_request c pid).method = Method.DELETE ∧
    (delete_request c pid).url = c.base_url ++ "/polls/" ++ toString pid ∧
    (delete_request c pid).headers = [("Authorization", "Bearer " ++ tok)] := by
  have htt : tokenTruthy c.token = true := by
    simp [tokenTruthy, htok, hne]
  have hrs : raise_for_status (t (delete_request c pid)) = Except.ok () := by
    unfold raise_for_status
    rw [if_neg]
    omega
  refine ⟨?_, rfl, rfl, ?_⟩
  · simp [delete_poll, htt, hrs]
  · simp [delete_request, htok]

/-- C6 witness: deletePoll(5) with token tok123 against a mocked 204
response returns unit without an error, for both 204 and 200. -/
theorem C6_delete_contract_witness :
    delete_poll (PollyClient.mk "http://localhost:8000" (some "tok123"))
        (fun _ => Response.mk 204 Json.null) 5 =
      (Except.ok (),
       PollyClient.mk "http://localhost:8000" (some "tok123"),
       [delete_request (PollyClient.mk "http://localhost:8000" (some "tok123")) 5]) ∧
    delete_poll (PollyClient.mk "http://localhost:8000" (some "tok123"))
        (fun _ => Response.mk 200 Json.null) 5 =
      (Except.ok (),
       PollyClient.mk "http://localhost:8000" (some "tok123"),
       [delete_request (PollyClient.mk "http://localhost:8000" (some "tok123")) 5]) :=
  ⟨(C6_delete_contract (PollyClient.mk "http://localhost:8000" (some "tok123"))
      (fun _ => Response.mk 204 Json.null) 5 "tok123" rfl (by decide) (by decide)).1,
   (C6_delete_contract (PollyClient.mk "http://localhost:8000" (some "tok123"))
      (fun _ => Response.mk 200 Json.null) 5 "tok123" rfl (by decide) (by decide)).1⟩

/-- C7, as stated, fails on the code: requests raise_for_status raises
only for 400-599, so a 304 response — a non-2xx status — does not raise:
get_polls returns the decoded body instead. -/
theorem C7_counterexample :
    ¬(200 ≤ (304 : Nat) ∧ (304 : Nat) < 300) ∧
    get_polls (PollyClient.mk "http://localhost:8000" Option.none)
        (fun _ => Response.mk 304 (Json.arr [])) 0 10 =
      (Except.ok (Json.arr []),
       PollyClient.mk "http://localhost:8000" Option.none,
       [polls_request (PollyClient.mk "http://localhost:8000" Option.none) 0 10]) :=
  ⟨by decide, rfl⟩

/-- C7 (amended): every method raises the HTTP error exactly for statuses
in 400-599; for any status outside that range (2xx and 3xx alike) no HTTP
error is raised — the non-login methods return the decoded body (unit for
delete), and login never surfaces an HTTP error there either. -/
theorem C7_raise_iff_4xx5xx (c : PollyClient) (resp : Response)
    (u p q : String) (opts : List String) (pid oid skip limit : Int)
    (htok : tokenTruthy c.token = true) :
    (400 ≤ resp.status ∧ resp.status < 600 →
      (login c (fun _ => resp) u p).1 =
        Except.error (PyError.httpError resp.status resp.body) ∧
      (vote_on_poll c (fun _ => resp) pid oid).1 =
        Except.error (PyError.httpError resp.status resp.body) ∧
      (get_polls c (fun _ => resp) skip limit).1 =
        Except.error (PyError.httpError resp.status resp.body) ∧
      (get_poll c (fun _ => resp) pid).1 =
        Except.error (PyError.httpError resp.status resp.body) ∧
      (get_poll_results c (fun _ => resp) pid).1 =
        Except.error (PyError.httpError resp.status resp.body) ∧
      (create_poll c (fun _ => resp) q opts).1 =
        Except.error (PyError.httpError resp.status resp.body) ∧
      (delete_poll c (fun _ => resp) pid).1 =
        Except.error (PyError.httpError resp.status resp.body)) ∧
    (¬(400 ≤ resp.status ∧ resp.status < 600) →
      (vote_on_poll c (fun _ => resp) pid oid).1 = Except.ok resp.body ∧
      (get_polls c (fun _ => resp) skip limit).1 = Except.ok resp.body ∧
      (get_poll c (fun _ => resp) pid).1 = Except.ok resp.body ∧
      (get_poll_results c (fun _ => resp) pid).1 = Except.ok resp.body ∧
      (create_poll c (fun _ => resp) q opts).1 = Except.ok resp.body ∧
      (delete_poll c (fun _ => resp) pid).1 = Except.ok () ∧
      ∀ st b, (login c (fun _ => resp) u p).1 ≠
        Except.error (PyError.httpError st b)) := by
  constructor
  · intro hs
    have hrs : raise_for_status resp =
        Except.error (PyError.httpError resp.status resp.body) := by
      unfold raise_for_status
      rw [if_pos hs]
    refine ⟨?_, ?_, ?_, ?_, ?_, ?_, ?_⟩ <;>
      simp [login, vote_on_poll, get_polls, get_poll, get_poll_results,
            create_poll, delete_poll, hrs, htok]
  · intro hs
    have hrs : raise_for_status resp = Except.ok () := by
      unfold raise_for_status
      rw [if_neg hs]
    refine ⟨?_, ?_, ?_, ?_, ?_, ?_, ?_⟩ <;>
      simp [login, vote_on_poll, get_polls, get_poll, get_poll_results,
            create_poll, delete_poll, hrs, htok]
    intro st b
    rcases hj : jsonGetItem resp.body "access_token" with e | j
    · have := jsonGetItem_ne_httpError resp.body "access_token" st b
      rw [hj] at this
      simpa using this
    · cases j <;> simp

/-- C7 witness: the no-raise direction evaluated at a mocked 304 response
with token tok set. -/
theorem C7_raise_iff_4xx5xx_witness :
    tokenTruthy (PollyClient.mk "http://localhost:8000" (some "tok")).token = true ∧
    ¬(400 ≤ (304 : Nat) ∧ (304 : Nat) < 600) ∧
    ((vote_on_poll (PollyClient.mk "http://localhost:8000" (some "tok"))
        (fun _ => Response.mk 304 (Json.str "cached")) 1 2).1 =
        Except.ok (Json.str "cached") ∧
     (get_polls (PollyClient.mk "http://localhost:8000" (some "tok"))
        (fun _ => Response.mk 304 (Json.str "cached")) 0 10).1 =
        Except.ok (Json.str "cached") ∧
     (get_poll (PollyClient.mk "http://localhost:8000" (some "tok"))
        (fun _ => Response.mk 304 (Json.str "cached")) 1).1 =
        Except.ok (Json.str "cached") ∧
     (get_poll_results (PollyClient.mk "http://localhost:8000" (some "tok"))
        (fun _ => Response.mk 304 (Json.str "cached")) 1).1 =
        Except.ok (Json.str "cached") ∧
     (create_poll (PollyClient.mk "http://localhost:8000" (some "tok"))
        (fun _ => Response.mk 304 (Json.str "cached")) "q" ["a", "b"]).1 =
        Except.ok (Json.str "cached") ∧
     (delete_poll (PollyClient.mk "http://localhost:8000" (some "tok"))
        (fun _ => Response.mk 304 (Json.str "cached")) 1).1 = Except.ok () ∧
     ∀ st b, (login (PollyClient.mk "http://localhost:8000" (some "tok"))
        (fun _ => Response.mk 304 (Json.str "cached")) "u" "p").1 ≠
        Except.error (PyError.httpError st b)) :=
  ⟨by decide, by decide,
   (C7_raise_iff_4xx5xx (PollyClient.mk "http://localhost:8000" (some "tok"))
      (Response.mk 304 (Json.str "cached")) "u" "p" "q" ["a", "b"] 1 2 0 10
      (by decide)).2 (by decide)⟩

/-- C8: base_url is never modified after construction and token only by
set_token or a successful login: the six request methods return the
client state verbatim, set_token keeps base_url, and login either leaves
the state untouched or performs exactly a set_token. -/
theorem C8_state_frame (c : PollyClient) (t : Transport) (u p q tk : String)
    (opts : List String) (pid oid skip limit : Int) :
    (get_polls c t skip limit).2.1 = c ∧
    (get_poll c t pid).2.1 = c ∧
    (get_poll_results c t pid).2.1 = c ∧
    (vote_on_poll c t pid oid).2.1 = c ∧
    (create_poll c t q opts).2.1 = c ∧
    (delete_poll c t pid).2.1 = c ∧
    (set_token c tk).base_url = c.base_url ∧
    (login c t u p).2.1.base_url = c.base_url ∧
    ((login c t u p).2.1 = c ∨ ∃ tok, (login c t u p).2.1 = set_token c tok) := by
  refine ⟨rfl, rfl, rfl, ?_, ?_, ?_, rfl, ?_, ?_⟩
  · unfold vote_on_poll
    split <;> rfl
  · unfold create_poll
    split <;> rfl
  · unfold delete_poll
    split <;> rfl
  · rcases h1 : raise_for_status (t (login_request c u p)) with e | uu
    · simp [login, h1]
    · rcases h2 : jsonGetItem (t (login_request c u p)).body "access_token" with e | j
      · simp [login, h1, h2]
      · cases j <;> simp [login, h1, h2, set_token]
  · rcases h1 : raise_for_status (t (login_request c u p)) with e | uu
    · exact Or.inl (by simp [login, h1])
    · rcases h2 : jsonGetItem (t (login_request c u p)).body "access_token" with e | j
      · exact Or.inl (by simp [login, h1, h2])
      · cases j with
        | str s => exact Or.inr ⟨s, by simp [login, h1, h2]⟩
        | null => exact Or.inl (by simp [login, h1, h2])
        | bool bb => exact Or.inl (by simp [login, h1, h2])
        | num n => exact Or.inl (by simp [login, h1, h2])
        | arr xs => exact Or.inl (by simp [login, h1, h2])
        | obj fs => exact Or.inl (by simp [login, h1, h2])

/-- C9: when the server rejects the login with a 4xx/5xx status, login
surfaces the HTTP error and returns the client unchanged — in particular
an existing token is neither cleared nor overwritten. -/
theorem C9_failed_login_preserves_token (c : PollyClient) (t : Transport) (u p : String)
    (hs : 400 ≤ (t (login_request c u p)).status ∧ (t (login_request c u p)).status < 600) :
    login c t u p =
      (Except.error (PyError.httpError (t (login_request c u p)).status
        (t (login_request c u p)).body), c, [login_request c u p]) ∧
    (login c t u p).2.1.token = c.token := by
  have hrs : raise_for_status (t (login_request c u p)) =
      Except.error (PyError.httpError (t (login_request c u p)).status
        (t (login_request c u p)).body) := by
    unfold raise_for_status
    rw [if_pos hs]
  have h1 : login c t u p =
      (Except.error (PyError.httpError (t (login_request c u p)).status
        (t (login_request c u p)).body), c, [login_request c u p]) := by
    simp only [login, hrs]
  exact ⟨h1, by rw [h1]⟩

/-- C9 witness: a client holding token old against a mocked 401 login
response keeps token old. -/
theorem C9_failed_login_preserves_token_witness :
    login (PollyClient.mk "http://localhost:8000" (some "old"))
        (fun _ => Response.mk 401 (Json.str "bad credentials")) "alice" "wrong" =
      (Except.error (PyError.httpError 401 (Json.str "bad credentials")),
       PollyClient.mk "http://localhost:8000" (some "old"),
       [login_request (PollyClient.mk "http://localhost:8000" (some "old")) "alice" "wrong"]) ∧
    (login (PollyClient.mk "http://localhost:8000" (some "old"))
        (fun _ => Response.mk 401 (Json.str "bad credentials")) "alice" "wrong").2.1.token =
      some "old" :=
  C9_failed_login_preserves_token (PollyClient.mk "http://localhost:8000" (some "old"))
    (fun _ => Response.mk 401 (Json.str "bad credentials")) "alice" "wrong"
    (by decide)

/-- C10: the unauthenticated operations get_polls, get_poll and
get_poll_results build requests with no Authorization header that do not
depend on the token: two clients differing only in token issue identical
requests and, against the same transport, produce identical results and
traces. -/
theorem C10_unauthenticated_token_independence (b : String) (tok1 tok2 : Option String)
    (t : Transport) (skip limit pid : Int) :
    polls_request (PollyClient.mk b tok1) skip limit =
      polls_request (PollyClient.mk b tok2) skip limit ∧
    (polls_request (PollyClient.mk b tok1) skip limit).headers = [] ∧
    poll_request (PollyClient.mk b tok1) pid = poll_request (PollyClient.mk b tok2) pid ∧
    (poll_request (PollyClient.mk b tok1) pid).headers = [] ∧
    results_request (PollyClient.mk b tok1) pid = results_request (PollyClient.mk b tok2) pid ∧
    (results_request (PollyClient.mk b tok1) pid).headers = [] ∧
    (get_polls (PollyClient.mk b tok1) t skip limit).1 =
      (get_polls (PollyClient.mk b tok2) t skip limit).1 ∧
    (get_polls (PollyClient.mk b tok1) t skip limit).2.2 =
      (get_polls (PollyClient.mk b tok2) t skip limit).2.2 ∧
    (get_poll (PollyClient.mk b tok1) t pid).1 = (get_poll (PollyClient.mk b tok2) t pid).1 ∧
    (get_poll (PollyClient.mk b tok1) t pid).2.2 =
      (get_poll (PollyClient.mk b tok2) t pid).2.2 ∧
    (get_poll_results (PollyClient.mk b tok1) t pid).1 =
      (get_poll_results (PollyClient.mk b tok2) t pid).1 ∧
    (get_poll_results (PollyClient.mk b tok1) t pid).2.2 =
      (get_poll_results (PollyClient.mk b tok2) t pid).2.2 :=
  ⟨rfl, rfl, rfl, rfl, rfl, rfl, rfl, rfl, rfl, rfl, rfl, rfl⟩

end Polly
